import Mathlib

/-
Shallow embedding of the two utility modules of the repository:
  src/utils/doc_utils.py      (convert_doc_to_docx)
  src/utils/mineru_client.py  (class MinueruClient)
External effects (the filesystem, the spawned conversion command, the HTTP
transport) are modelled as explicit oracle parameters; opened file handles and
issued POST requests are tracked in an explicit state record.
-/

namespace PyPath

/- Index of the last occurrence of a character in a list, mirroring the
Python str.rfind method (which returns -1 when absent; here Option). -/
def rfindIdx (c : Char) : List Char → Option Nat
  | [] => none
  | a :: rest =>
    match rfindIdx c rest with
    | some i => some (i + 1)
    | none => if a = c then some 0 else none

/- Translate the Option result to the -1 convention of str.rfind. -/
def optIdx (o : Option Nat) : Int :=
  match o with
  | some i => (i : Int)
  | none => -1

/- os.path.splitext for POSIX paths: split off the extension at the last
dot that lies after the last slash, unless the basename up to that dot is
made of dots only (so dotfiles such as .bashrc keep no extension). -/
def splitext (p : String) : String × String :=
  let l := p.data
  let sepIdx := optIdx (rfindIdx '/' l)
  let dotIdx := optIdx (rfindIdx '.' l)
  if sepIdx < dotIdx then
    let fStart := (sepIdx + 1).toNat
    let d := dotIdx.toNat
    if ((l.drop fStart).take (d - fStart)).any (fun ch => ch ≠ '.') then
      (String.mk (l.take d), String.mk (l.drop d))
    else (p, "")
  else (p, "")

/- os.path.dirname: everything before the final slash; a nonempty head
that is not all slashes has its trailing slashes stripped. -/
def dirname (p : String) : String :=
  let l := p.data
  let i := match rfindIdx '/' l with
    | some j => j + 1
    | none => 0
  let head := l.take i
  if head ≠ [] ∧ head.any (fun ch => ch ≠ '/') then
    String.mk ((head.reverse.dropWhile (fun ch => ch = '/')).reverse)
  else String.mk head

/- os.path.basename: everything after the final slash. -/
def basename (p : String) : String :=
  let l := p.data
  let i := match rfindIdx '/' l with
    | some j => j + 1
    | none => 0
  String.mk (l.drop i)

/- os.path.join for two POSIX components. -/
def joinPath (a b : String) : String :=
  if b.data.head? = some '/' then b
  else if a = "" ∨ a.data.getLast? = some '/' then a ++ b
  else a ++ String.mk ['/'] ++ b

/- pathlib.PurePath.name: the last path component, trailing slashes ignored. -/
def pathName (p : String) : String :=
  let l := (p.data.reverse.dropWhile (fun ch => ch = '/')).reverse
  match rfindIdx '/' l with
  | some i => String.mk (l.drop (i + 1))
  | none => String.mk l

/- pathlib.PurePath.suffix: the extension of the name, provided the last dot
is neither the first nor the last character of the name. -/
def pySuffix (p : String) : String :=
  let name := (pathName p).data
  match rfindIdx '.' name with
  | some i => if 0 < i ∧ i < name.length - 1 then String.mk (name.drop i) else ""
  | none => ""

/- str.lower restricted to the ASCII case mapping of Char.toLower. -/
def lowerStr (s : String) : String :=
  String.mk (s.data.map Char.toLower)

end PyPath

namespace DocUtils

/- convert_doc_to_docx from src/utils/doc_utils.py.
The external soffice command is modelled by two oracle parameters: the exit
code of subprocess.run and the state of the filesystem after the command
(a predicate telling whether a file exists at a path).  subprocess.run is
called with check=True, so a nonzero exit raises CalledProcessError, which
the function catches and turns into None.  On exit code 0 the source checks
os.path.exists(generated_file) only to choose which message to print: it
returns generated_file on both branches of that check. -/
def convert_doc_to_docx (run_exit_code : Nat) (fs_after : String → Bool)
    (input_doc_path : String) : Option String :=
  let output_docx_path := (PyPath.splitext input_doc_path).1 ++ (".docx")
  if run_exit_code ≠ 0 then
    none
  else
    let generated_file :=
      PyPath.joinPath (PyPath.dirname output_docx_path) (PyPath.basename output_docx_path)
    let _exists := fs_after generated_file
    some generated_file

end DocUtils

namespace MinueruClient

def DEFAULT_BASE_URL : String := "http://localhost:8008/file_parse"

/- The fixed upload parameter mapping sent with every request. -/
def DEFAULT_PARAMS : List (String × String) :=
  [("return_middle_json", "false"),
   ("return_model_output", "false"),
   ("return_md", "true"),
   ("return_images", "true"),
   ("end_page_id", "99999"),
   ("parse_method", "auto"),
   ("start_page_id", "0"),
   ("lang_list", "en"),
   ("output_dir", "./output"),
   ("server_url", "string"),
   ("return_content_list", "false"),
   ("backend", "pipeline"),
   ("table_enable", "true"),
   ("response_format_zip", "false"),
   ("formula_enable", "true")]

/- Client configuration fixed by __init__: base_url and timeout (seconds). -/
structure Client where
  base_url : String
  timeout : Nat
deriving DecidableEq

/- __init__: the Python expression (base_url or DEFAULT_BASE_URL) falls back
to the default when base_url is None or any falsy value, and for a string
the only falsy value is the empty string. -/
def init (base_url : Option String) (timeout : Nat) : Client :=
  { base_url :=
      match base_url with
      | some s => if s = "" then DEFAULT_BASE_URL else s
      | none => DEFAULT_BASE_URL,
    timeout := timeout }

/- What the filesystem says about one path: Path.exists and Path.is_file. -/
inductive PathStat
  | absent
  | file
  | dir
deriving DecidableEq

/- The local filesystem, as the oracle the client consults. -/
abbrev FileSystem : Type := String → PathStat

/- One file handle created by open(file_path, rb) during a parse call,
with the number of times close() ran on it. -/
structure HandleRec where
  path : String
  closeCount : Nat
deriving DecidableEq

/- One prepared upload tuple: (files, (file_path.name, handle, mime_type)).
The handle field is the index of the open handle in the state. -/
structure Entry where
  fieldName : String
  filename : String
  handle : Nat
  mime : String
deriving DecidableEq

/- One POST request issued by parse. -/
structure PostRequest where
  url : String
  timeout : Nat
deriving DecidableEq

/- Effect state of one parse invocation: the handles opened so far (in open
order, so a handle is its index) and the POST requests issued. -/
structure PState where
  handles : List HandleRec
  posts : List PostRequest
deriving DecidableEq

def initState : PState := { handles := [], posts := [] }

/- The Python exceptions that can cross function boundaries here. -/
inductive PyExn
  | valueError (msg : String)
  | fileNotFoundError (msg : String)
  | timeout
  | connectionError
  | jsonDecodeError
  | requestException
deriving DecidableEq

/- The dict literal mime_map of _detect_mime_type. -/
def mime_map : List (String × String) :=
  [(".pdf", "application/pdf"),
   (".doc", "application/msword"),
   (".docx", "application/vnd.openxmlformats-officedocument.wordprocessingml.document"),
   (".xls", "application/vnd.ms-excel"),
   (".xlsx", "application/vnd.openxmlformats-officedocument.spreadsheetml.sheet"),
   (".ppt", "application/vnd.ms-powerpoint"),
   (".pptx", "application/vnd.openxmlformats-officedocument.presentationml.presentation"),
   (".txt", "text/plain"),
   (".md", "text/markdown"),
   (".html", "text/html"),
   (".htm", "text/html")]

/- dict.get(key, default) over the association list of a dict literal. -/
def dictGet (m : List (String × String)) (k : String) (dflt : String) : String :=
  match m with
  | [] => dflt
  | (key, v) :: rest => if k = key then v else dictGet rest k dflt

/- _detect_mime_type: mime_map.get(file_path.suffix.lower(), octet-stream). -/
def detect_mime_type (file_path : String) : String :=
  dictGet mime_map (PyPath.lowerStr (PyPath.pySuffix file_path)) ("application/octet-stream")

/- The for loop of _prepare_files: walk the paths in order; a missing path
raises FileNotFoundError, an existing non-file raises ValueError, and an
existing regular file is opened (a new handle is appended to the state) and
its upload tuple recorded.  Handles opened before a raise stay open: the
partially built local list of the loop is discarded by the exception. -/
def prepareLoop (fs : FileSystem) :
    List String → PState → List Entry → Except PyExn (List Entry) × PState
  | [], st, acc => (Except.ok acc.reverse, st)
  | fp :: rest, st, acc =>
    match fs fp with
    | PathStat.absent => (Except.error (PyExn.fileNotFoundError fp), st)
    | PathStat.dir => (Except.error (PyExn.valueError fp), st)
    | PathStat.file =>
      let h := st.handles.length
      let st2 : PState := { st with handles := st.handles ++ [{ path := fp, closeCount := 0 }] }
      prepareLoop fs rest st2
        ({ fieldName := "files", filename := PyPath.pathName fp,
           handle := h, mime := detect_mime_type fp } :: acc)

/- _prepare_files: an empty list raises ValueError before the loop. -/
def prepare_files (fs : FileSystem) (local_files : List String) (st : PState) :
    Except PyExn (List Entry) × PState :=
  if local_files.isEmpty then
    (Except.error (PyExn.valueError ("file list must not be empty")), st)
  else prepareLoop fs local_files st []

/- Set the close mark on one handle record the way file_obj.close() does
behind the guard (if not file_obj.closed): a second close is a no-op. -/
def closeOnce (r : HandleRec) : HandleRec :=
  if r.closeCount = 0 then { r with closeCount := 1 } else r

/- Apply a function at one index of a handle list. -/
def listModify (f : HandleRec → HandleRec) : Nat → List HandleRec → List HandleRec
  | _, [] => []
  | 0, a :: l => f a :: l
  | Nat.succ n, a :: l => a :: listModify f n l

/- _close_files: close the handle of every tuple in the given list; the
inner try of the source means a failing close cannot raise. -/
def close_files (files : List Entry) (st : PState) : PState :=
  files.foldl (fun s e => { s with handles := listModify closeOnce e.handle s.handles }) st

/- The body the service produced, as far as response.json() is concerned. -/
inductive Body (α : Type)
  | json (v : α)
  | malformed
deriving DecidableEq

/- Outcome of the requests.post call: a response with a status code and a
body, or one of the exceptions requests can raise. -/
inductive NetOutcome (α : Type)
  | response (status : Nat) (body : Body α)
  | timeout
  | connectionError
  | otherError
deriving DecidableEq

/- parse: files = []; try: files = _prepare_files(...); requests.post(...);
on 200 return response.json() (an inner except turns JSONDecodeError into
None); on any other status return None; the except clauses turn Timeout,
ConnectionError, FileNotFoundError and every other Exception into None; the
finally clause runs _close_files on the files variable, which is still the
empty list when _prepare_files raised.  The Except in the result type keeps
room for an exception reaching the caller. -/
def parse {α : Type} (c : Client) (fs : FileSystem) (net : NetOutcome α)
    (local_files : List String) (st : PState) : Except PyExn (Option α) × PState :=
  match prepare_files fs local_files st with
  | (Except.error _, st1) => (Except.ok none, close_files [] st1)
  | (Except.ok files, st1) =>
    let st2 : PState :=
      { st1 with posts := st1.posts ++ [{ url := c.base_url, timeout := c.timeout }] }
    match net with
    | NetOutcome.response status body =>
      if status = 200 then
        match body with
        | Body.json v => (Except.ok (some v), close_files files st2)
        | Body.malformed => (Except.ok none, close_files files st2)
      else (Except.ok none, close_files files st2)
    | NetOutcome.timeout => (Except.ok none, close_files files st2)
    | NetOutcome.connectionError => (Except.ok none, close_files files st2)
    | NetOutcome.otherError => (Except.ok none, close_files files st2)

/- parse_single: return self.parse([file_path]). -/
def parse_single {α : Type} (c : Client) (fs : FileSystem) (net : NetOutcome α)
    (file_path : String) (st : PState) : Except PyExn (Option α) × PState :=
  parse c fs net [file_path] st

/- Python str.replace replaces every occurrence of the pattern, scanning
left to right.  Structural fuel recursion keeps the definition reducible;
fuel equal to the length of the string is enough for a nonempty pattern. -/
def listStartsWith : List Char → List Char → Bool
  | _, [] => true
  | [], _ :: _ => false
  | a :: l, b :: m => a = b && listStartsWith l m

def replaceAllAux (pat repl : List Char) : Nat → List Char → List Char
  | 0, l => l
  | Nat.succ fuel, l =>
    match l with
    | [] => []
    | a :: rest =>
      if listStartsWith (a :: rest) pat then
        repl ++ replaceAllAux pat repl fuel ((a :: rest).drop pat.length)
      else a :: replaceAllAux pat repl fuel rest

def pyReplace (s pat repl : String) : String :=
  if pat.data = [] then s
  else String.mk (replaceAllAux pat.data repl.data s.data.length s.data)

/- Record of the single GET request test_connection issues. -/
structure GetRequest where
  url : String
  timeout : Nat
deriving DecidableEq

/- Outcome of the requests.get call: a response status, or any exception. -/
inductive GetOutcome
  | response (status : Nat)
  | exn
deriving DecidableEq

/- test_connection: GET self.base_url.replace(/file_parse, empty) with
timeout 5; return status == 200; any exception returns False. -/
def test_connection (c : Client) (out : GetOutcome) : Bool × GetRequest :=
  let req : GetRequest := { url := pyReplace c.base_url ("/file_parse") (""), timeout := 5 }
  match out with
  | GetOutcome.response status => ((status == 200 : Bool), req)
  | GetOutcome.exn => (false, req)

/-- Modelled from the spec: the fixed extension to MIME lookup table of
infer-mime (pdf, doc, docx, xls, xlsx, ppt, pptx, txt, md, html, htm) with
the generic binary default, stated as a case split on the lowercased
extension, to be compared with the dict based lookup of the source. -/
def inferMimeSpec (ext : String) : String :=
  if ext = (".pdf") then ("application/pdf")
  else if ext = (".doc") then ("application/msword")
  else if ext = (".docx") then
    ("application/vnd.openxmlformats-officedocument.wordprocessingml.document")
  else if ext = (".xls") then ("application/vnd.ms-excel")
  else if ext = (".xlsx") then
    ("application/vnd.openxmlformats-officedocument.spreadsheetml.sheet")
  else if ext = (".ppt") then ("application/vnd.ms-powerpoint")
  else if ext = (".pptx") then
    ("application/vnd.openxmlformats-officedocument.presentationml.presentation")
  else if ext = (".txt") then ("text/plain")
  else if ext = (".md") then ("text/markdown")
  else if ext = (".html") then ("text/html")
  else if ext = (".htm") then ("text/html")
  else ("application/octet-stream")

/- Fixtures for concrete evaluations: a client built with the defaults and
a filesystem holding exactly one regular file, a.pdf. -/
def demoClient : Client := init none 360

def demoFS : FileSystem :=
  fun p => if p = ("a.pdf") then PathStat.file else PathStat.absent

/- The loop of _prepare_files never issues a POST request. -/
theorem prepareLoop_posts (fs : FileSystem) (l : List String) (st : PState)
    (acc : List Entry) : ((prepareLoop fs l st acc).2).posts = st.posts := by
  induction l generalizing st acc with
  | nil => rfl
  | cons fp rest ih =>
    cases hfp : fs fp with
    | absent => simp [prepareLoop, hfp]
    | dir => simp [prepareLoop, hfp]
    | file => simp [prepareLoop, hfp, ih]

/- _prepare_files never issues a POST request. -/
theorem prepare_files_posts (fs : FileSystem) (l : List String) (st : PState) :
    ((prepare_files fs l st).2).posts = st.posts := by
  unfold prepare_files
  split
  · rfl
  · exact prepareLoop_posts fs l st []

/- _close_files touches only the handle records, never the POST log. -/
theorem close_files_posts (files : List Entry) (st : PState) :
    (close_files files st).posts = st.posts := by
  induction files generalizing st with
  | nil => rfl
  | cons e rest ih =>
    have hstep : close_files (e :: rest) st
        = close_files rest { st with handles := listModify closeOnce e.handle st.handles } := rfl
    rw [hstep, ih]

/- A path list containing a path absent from the filesystem makes the loop
of _prepare_files end in an exception. -/
theorem prepareLoop_error_of_absent (fs : FileSystem) (l : List String) (st : PState)
    (acc : List Entry) (h : ∃ p ∈ l, fs p = PathStat.absent) :
    ∃ e, (prepareLoop fs l st acc).1 = Except.error e := by
  induction l generalizing st acc with
  | nil =>
    rcases h with ⟨p, hp, _⟩
    cases hp
  | cons fp rest ih =>
    cases hfp : fs fp with
    | absent => exact ⟨PyExn.fileNotFoundError fp, by simp [prepareLoop, hfp]⟩
    | dir => exact ⟨PyExn.valueError fp, by simp [prepareLoop, hfp]⟩
    | file =>
      rcases h with ⟨p, hp, habs⟩
      rcases List.mem_cons.mp hp with rfl | hmem
      · rw [hfp] at habs
        cases habs
      · rcases ih ({ st with handles := st.handles ++ [{ path := fp, closeCount := 0 }] })
            ({ fieldName := "files", filename := PyPath.pathName fp,
               handle := st.handles.length, mime := detect_mime_type fp } :: acc)
            ⟨p, hmem, habs⟩ with ⟨e, he⟩
        exact ⟨e, by simpa [prepareLoop, hfp] using he⟩

/- When every path is a regular file the loop of _prepare_files succeeds. -/
theorem prepareLoop_ok_of_files (fs : FileSystem) (l : List String) (st : PState)
    (acc : List Entry) (h : ∀ p ∈ l, fs p = PathStat.file) :
    ∃ es st2, prepareLoop fs l st acc = (Except.ok es, st2) := by
  induction l generalizing st acc with
  | nil => exact ⟨acc.reverse, st, rfl⟩
  | cons fp rest ih =>
    have hfp : fs fp = PathStat.file := h fp (List.mem_cons_self fp rest)
    rcases ih ({ st with handles := st.handles ++ [{ path := fp, closeCount := 0 }] })
        ({ fieldName := "files", filename := PyPath.pathName fp,
           handle := st.handles.length, mime := detect_mime_type fp } :: acc)
        (fun p hp => h p (List.mem_cons_of_mem fp hp)) with ⟨es, st2, heq⟩
    exact ⟨es, st2, by simp [prepareLoop, hfp, heq]⟩

/- On a nonempty list of regular files _prepare_files succeeds. -/
theorem prepare_files_ok (fs : FileSystem) (paths : List String) (st : PState)
    (h1 : paths ≠ []) (h2 : ∀ p ∈ paths, fs p = PathStat.file) :
    ∃ es st2, prepare_files fs paths st = (Except.ok es, st2) := by
  cases paths with
  | nil => exact absurd rfl h1
  | cons a l =>
    have hstep : prepare_files fs (a :: l) st = prepareLoop fs (a :: l) st [] := rfl
    rw [hstep]
    exact prepareLoop_ok_of_files fs (a :: l) st [] h2

/- The dict based lookup of the source agrees everywhere with the table
read off the spec. -/
theorem dictGet_mime_eq (s : String) :
    dictGet mime_map s ("application/octet-stream") = inferMimeSpec s := by
  simp only [mime_map, dictGet, inferMimeSpec]

/-- Claim C1, counterexample: on the empty path list parse returns the
absence value (ok none) to its caller with the state unchanged, instead of
letting the ValueError raised by validation reach the caller: the final
except Exception clause of parse catches it. -/
theorem C1_empty_list_counterexample :
    parse demoClient demoFS (NetOutcome.response 200 (Body.json Unit.unit))
      ([] : List String) initState = (Except.ok none, initState) := rfl

/-- Claim C1 amended: for every empty collection of input paths, parse
catches the ValueError raised by validation and returns None to the caller,
and no network call is made: the state, including the POST log, is returned
unchanged. -/
theorem C1_parse_empty_returns_none {α : Type} (c : Client) (fs : FileSystem)
    (net : NetOutcome α) (st : PState) :
    parse c fs net [] st = (Except.ok none, st) := rfl

/-- Claim C2, counterexample: on a list holding one nonexistent path parse
returns the absence value (ok none) to its caller instead of letting the
FileNotFoundError reach the caller: the except FileNotFoundError clause of
parse catches it. -/
theorem C2_missing_file_counterexample :
    (parse demoClient demoFS (NetOutcome.response 200 (Body.json Unit.unit))
        [("missing.pdf")] initState).1 = Except.ok none := rfl

/-- Claim C2 amended: for every collection of input paths containing at
least one path absent from the filesystem, parse returns None to the caller
(the FileNotFoundError is caught inside parse) and issues no network call:
the POST log is unchanged. -/
theorem C2_parse_missing_returns_none {α : Type} (c : Client) (fs : FileSystem)
    (net : NetOutcome α) (paths : List String) (st : PState)
    (h : ∃ p ∈ paths, fs p = PathStat.absent) :
    (parse c fs net paths st).1 = Except.ok none ∧
      ((parse c fs net paths st).2).posts = st.posts := by
  have herr : ∃ e, (prepare_files fs paths st).1 = Except.error e := by
    cases paths with
    | nil =>
      rcases h with ⟨p, hp, _⟩
      cases hp
    | cons a l =>
      have hstep : prepare_files fs (a :: l) st = prepareLoop fs (a :: l) st [] := rfl
      rw [hstep]
      exact prepareLoop_error_of_absent fs (a :: l) st [] h
  rcases herr with ⟨e, he⟩
  rcases hpf : prepare_files fs paths st with ⟨r, st1⟩
  rw [hpf] at he
  have hposts : st1.posts = st.posts := by
    have hp2 := prepare_files_posts fs paths st
    rw [hpf] at hp2
    exact hp2
  cases r with
  | ok es => cases he
  | error e2 =>
    constructor
    · simp [parse, hpf]
    · simp [parse, hpf, close_files, hposts]

/-- Claim C2 amended, witness at a concrete input. -/
theorem C2_parse_missing_returns_none_witness :
    (parse demoClient demoFS (NetOutcome.response 200 (Body.json Unit.unit))
        [("missing.pdf")] initState).1 = Except.ok none ∧
      ((parse demoClient demoFS (NetOutcome.response 200 (Body.json Unit.unit))
        [("missing.pdf")] initState).2).posts = initState.posts :=
  C2_parse_missing_returns_none demoClient demoFS
    (NetOutcome.response 200 (Body.json Unit.unit)) [("missing.pdf")] initState
    (by decide)

/-- Claim C3 fails on the code: on the path list [a.pdf, missing.pdf] the
handle opened for a.pdf before FileNotFoundError is raised inside
_prepare_files is never closed.  After parse returns, that handle has close
count 0, not 1: the finally clause closes the files variable of parse,
which is still the empty list when _prepare_files raises partway. -/
theorem C3_handle_leak_on_partial_prepare :
    ((parse demoClient demoFS (NetOutcome.response 200 (Body.json Unit.unit))
        [("a.pdf"), ("missing.pdf")] initState).2).handles
      = [{ path := ("a.pdf"), closeCount := 0 }] := rfl

/-- Claim C4 fails on the code: with exit status 0 and no file present at
the expected output path, convert_doc_to_docx still returns the derived
path report.docx instead of the absence value (the existence check of the
source only selects the printed message); a nonzero exit status does
return the absence value. -/
theorem C4_returns_path_despite_missing_output :
    DocUtils.convert_doc_to_docx 0 (fun _ => false) ("report.doc")
        = some ("report.docx") ∧
      DocUtils.convert_doc_to_docx 1 (fun _ => false) ("report.doc") = none := by
  constructor <;> rfl

/-- Claim C5: _detect_mime_type is a pure function of the lowercased file
extension, agreeing everywhere with the fixed extension table of the spec;
it is case insensitive, sending a.PDF and a.pdf both to application/pdf,
and an unrecognized extension yields the generic binary MIME type. -/
theorem C5_detect_mime_pure_table (p : String) :
    detect_mime_type p = inferMimeSpec (PyPath.lowerStr (PyPath.pySuffix p)) ∧
      detect_mime_type ("a.PDF") = ("application/pdf") ∧
      detect_mime_type ("a.pdf") = ("application/pdf") ∧
      detect_mime_type ("a.xyz") = ("application/octet-stream") := by
  refine ⟨dictGet_mime_eq (PyPath.lowerStr (PyPath.pySuffix p)), ?_, ?_, ?_⟩ <;> rfl

/-- Claim C6: when validation succeeds, a 200 response whose body decodes
as JSON makes parse return the decoded value unchanged, and a response with
any status other than 200 makes parse return None. -/
theorem C6_response_round_trip {α : Type} (c : Client) (fs : FileSystem)
    (paths : List String) (st : PState)
    (h1 : paths ≠ []) (h2 : ∀ p ∈ paths, fs p = PathStat.file) :
    (∀ v : α, (parse c fs (NetOutcome.response 200 (Body.json v)) paths st).1
        = Except.ok (some v)) ∧
      (∀ status : Nat, status ≠ 200 → ∀ body : Body α,
        (parse c fs (NetOutcome.response status body) paths st).1 = Except.ok none) := by
  rcases prepare_files_ok fs paths st h1 h2 with ⟨es, st2, heq⟩
  constructor
  · intro v
    simp [parse, heq]
  · intro status hs body
    simp [parse, heq, hs]

/-- Claim C6, witness at a concrete input. -/
theorem C6_response_round_trip_witness :
    (parse demoClient demoFS (NetOutcome.response 200 (Body.json Unit.unit))
        [("a.pdf")] initState).1 = Except.ok (some Unit.unit) :=
  (C6_response_round_trip demoClient demoFS [("a.pdf")] initState
    (by decide) (by decide)).1 Unit.unit

/-- Claim C7: parse_single on one path is exactly parse on the singleton
list of that path: same issued requests, same handle state, same result. -/
theorem C7_parse_single_refines_parse {α : Type} (c : Client) (fs : FileSystem)
    (net : NetOutcome α) (p : String) (st : PState) :
    parse_single c fs net p st = parse c fs net [p] st := rfl

/-- Claim C8: test_connection issues one GET whose target is the base URL
with the /file_parse sub path removed (on the default base URL that target
is http://localhost:8008) and whose timeout is 5 seconds; it returns a
boolean in every case, true exactly when the status is 200, and false for
every other status and for every exception. -/
theorem C8_test_connection_contract (c : Client) (out : GetOutcome) :
    ((test_connection c out).2).timeout = 5 ∧
      ((test_connection c out).2).url = pyReplace c.base_url ("/file_parse") ("") ∧
      ((test_connection c out).1 = true ↔ out = GetOutcome.response 200) ∧
      pyReplace DEFAULT_BASE_URL ("/file_parse") ("") = ("http://localhost:8008") := by
  refine ⟨?_, ?_, ?_, ?_⟩
  · cases out <;> rfl
  · cases out <;> rfl
  · cases out with
    | response s => simp [test_connection]
    | exn => simp [test_connection]
  · rfl

/-- Claim C9: parse is total over exceptions: for every input list, every
filesystem and every network outcome, the value handed to the caller is a
plain result (a decoded payload or None) and never a propagated exception. -/
theorem C9_parse_never_raises {α : Type} (c : Client) (fs : FileSystem)
    (net : NetOutcome α) (paths : List String) (st : PState) :
    ∃ r : Option α, (parse c fs net paths st).1 = Except.ok r := by
  rcases hpf : prepare_files fs paths st with ⟨r, st1⟩
  cases r with
  | error e => exact ⟨none, by simp [parse, hpf]⟩
  | ok es =>
    cases net with
    | response status body =>
      by_cases hs : status = 200
      · cases body with
        | json v => exact ⟨some v, by simp [parse, hpf, hs]⟩
        | malformed => exact ⟨none, by simp [parse, hpf, hs]⟩
      · exact ⟨none, by simp [parse, hpf, hs]⟩
    | timeout => exact ⟨none, by simp [parse, hpf]⟩
    | connectionError => exact ⟨none, by simp [parse, hpf]⟩
    | otherError => exact ⟨none, by simp [parse, hpf]⟩

/-- Claim C10: constructing the client with None or with the empty string
as base_url stores the default base URL, any nonempty base_url string is
stored unchanged, and the stored base URL is never the empty string. -/
theorem C10_init_base_url_fallback (t : Nat) (s : String) (h : s ≠ "") :
    (init (some ("")) t).base_url = DEFAULT_BASE_URL ∧
      (init none t).base_url = DEFAULT_BASE_URL ∧
      (init (some s) t).base_url = s ∧
      (∀ b : Option String, (init b t).base_url ≠ "") := by
  refine ⟨rfl, rfl, ?_, ?_⟩
  · simp [init, h]
  · intro b
    cases b with
    | none =>
      show DEFAULT_BASE_URL ≠ ""
      decide
    | some s2 =>
      by_cases h2 : s2 = ""
      · simp only [init, h2, if_pos rfl]
        decide
      · simp only [init, if_neg h2]
        exact h2

/-- Claim C10, witness at a concrete input. -/
theorem C10_init_base_url_fallback_witness :
    (("http://example.com:9999/file_parse") : String) ≠ "" ∧
      (init (some ("http://example.com:9999/file_parse")) 360).base_url
        = ("http://example.com:9999/file_parse") :=
  ⟨by decide,
    (C10_init_base_url_fallback 360 ("http://example.com:9999/file_parse")
      (by decide)).2.2.1⟩

end MinueruClient
